import Mathlib

/-!
Verification development for the customer-support-agent backend proxy.

This file gives a shallow embedding of the request-handling code in
`backend/server.py` (chat endpoint, provider adapters, query interpreter and
database context builder) and `backend/routes/db.py` (product update endpoint),
and proves properties of the embedded definitions.

Modelling conventions:
* Python strings are Lean `String`s; the handful of Python string operations
  the code uses (`in`, `split`, `strip`, `lower`, `startswith`, `replace`) are
  reimplemented structurally over `List Char` so that they evaluate inside the
  kernel.
* Network calls are modelled by passing the outcome of the call (transport
  failure, or an HTTP response with status, body and optionally parsed JSON
  payload) as an explicit argument.  A `List` of outcomes models the sequence
  of responses the peer would give to successive requests, so that "the
  request is not retried" is expressible as independence from the tail.
* A Python exception escaping a function is modelled by `Except`: `.error`
  means the call raised.
* SQL floats are modelled as `Rat`; an un-`ORDER BY`ed SELECT returns the
  catalog rows in the backend's default order, modelled as the order of the
  Lean list that stands for the table.
-/

namespace CSAgent

/-! Character-level reimplementations of the Python string primitives used by
`backend/server.py`.  They operate on `List Char` (`String.data`) so that all
of them reduce under `decide`. -/

/-- Python whitespace, as stripped by `str.strip()`. -/
def pyIsSpace (c : Char) : Bool :=
  c = ' ' || c = '\t' || c = '\n' || c = '\r' || c = '\x0b' || c = '\x0c'

/-- Python `sep in s` (substring containment) on character lists. -/
def charsContains : List Char → List Char → Bool
  | [], pat => pat.isEmpty
  | s@(_ :: rest), pat => pat.isPrefixOf s || charsContains rest pat

/-- Split at the first occurrence of `sep`: the part before it, and (when
`sep` occurs) the remainder after it.  Python `s.split(sep)[0]` is the first
component; the segments after the first are recovered by iterating on the
second component. -/
def splitFirst (sep : List Char) : List Char → List Char × Option (List Char)
  | [] => ([], none)
  | c :: rest =>
    if sep.isPrefixOf (c :: rest) then
      ([], some (List.drop sep.length (c :: rest)))
    else
      let r := splitFirst sep rest
      (c :: r.1, r.2)

/-- Python `s.split(sep)[1]` for a `sep` that occurs in `s`: the segment
between the first and second occurrence of `sep`. -/
def pySplitSecond (sep s : List Char) : List Char :=
  match (splitFirst sep s).2 with
  | none => []
  | some rest => (splitFirst sep rest).1

/-- Python `s.strip()`. -/
def pyStrip (s : List Char) : List Char :=
  ((s.dropWhile pyIsSpace).reverse.dropWhile pyIsSpace).reverse

/-- Python `s.lower()` on a `String` (the source only lowercases ASCII). -/
def pyLowerStr (s : String) : String :=
  ⟨s.data.map Char.toLower⟩

/-- Python `s.startswith(pre)`. -/
def pyStartsWith (s pre : String) : Bool :=
  List.isPrefixOf pre.data s.data

/-- Python `s.replace(sep, "")`: removes every (non-overlapping, left-to-right)
occurrence of `sep`.  Structural recursion is obtained through a fuel argument
that starts at the length of `s`, which is enough fuel for a non-empty `sep`
because each step consumes at least one character. -/
def removeAllAux (sep : List Char) : Nat → List Char → List Char
  | _, [] => []
  | 0, s => s
  | Nat.succ fuel, c :: rest =>
    if sep.isPrefixOf (c :: rest) && !sep.isEmpty then
      removeAllAux sep fuel (List.drop sep.length (c :: rest))
    else
      c :: removeAllAux sep fuel rest

/-- Python `s.replace(sep, "")` on `String`s. -/
def pyRemoveAll (s sep : String) : String :=
  ⟨removeAllAux sep.data s.data.length s.data⟩

/-! Data model. -/

/-- One OpenAI-style chat message, `{"role": ..., "content": ...}`.  The
source reads both fields with `m.get(..., default)`; a message dict missing a
field is identified with one carrying the default. -/
structure Message where
  role : String
  content : String
deriving Repr, DecidableEq

/-- One row of the `products` table of `database/database.py`.  `price` is a
SQL float, modelled as `Rat`; `stock` is a SQL integer. -/
structure Product where
  id : Int
  name : String
  category : String
  price : Rat
  description : String
  stock : Int
deriving Repr, DecidableEq

/-- The structured filter the query interpreter extracts from the auxiliary
LLM's JSON answer (`query_params` in `_build_db_context_messages`).  Each
field default mirrors the corresponding `query_params.get(key, default)`
read in the source, so the all-defaults value is exactly the fallback dict
`{"limit": 20}` as the source consumes it. -/
structure QueryParams where
  category_keywords : List String := []
  search_terms : List String := []
  min_price : Option Rat := none
  max_price : Option Rat := none
  limit : Nat := 20
deriving Repr, DecidableEq

/-- The fallback filter `{"limit": 20}` of `_build_db_context_messages`. -/
def defaultParams : QueryParams := {}

/-- Outcome of one `requests` HTTP call: either the transport layer raised
(connection error / timeout), or a response arrived with a status code, a
body text, and — when the body parsed as JSON — a decoded payload of type
`α` (`data? = none` models `resp.json()` raising). -/
inductive HttpOutcome (α : Type) where
  | transportFailure (msg : String)
  | response (status : Nat) (body : String) (data? : Option α)
deriving Repr, DecidableEq

/-- Python `requests` treats a status code in `[400, 600)` as an error:
`resp.ok` is false and `resp.raise_for_status()` raises exactly there. -/
def isHttpError (status : Nat) : Bool :=
  400 ≤ status && status < 600

/-! Query interpreter (`backend/server.py` lines 207-271): the auxiliary LLM
call that turns the user's last utterance into `query_params`. -/

/-- The JSON payload decoded from the auxiliary LLM call's response
(`resp.json()` at line 252).  The source extracts the answer text with
`data.get("candidates", [{}])[0].get("content", {}).get("parts", [{}])[0].get("text", "{}")`;
`aiText? = some t` models that chain producing `t` (with the `.get` defaults
already applied, so a payload missing the keys yields the default text),
while `aiText? = none` models the chain raising (for example an empty
`candidates` list makes `[0]` an `IndexError`), which the enclosing
`except Exception` turns into the fallback. -/
structure AuxData where
  aiText? : Option String
deriving Repr, DecidableEq

/-- Fence stripping of the interpreter (lines 255-259): strip whitespace,
then, if a fenced block is present, keep the text between the opening fence
(preferring a "```json"-tagged one) and the next "```", stripped again. -/
def stripFences (raw : String) : String :=
  let s := pyStrip raw.data
  if charsContains s "```json".data then
    ⟨pyStrip (splitFirst "```".data (pySplitSecond "```json".data s)).1⟩
  else if charsContains s "```".data then
    ⟨pyStrip (splitFirst "```".data (pySplitSecond "```".data s)).1⟩
  else ⟨s⟩

/-- Interpretation step (lines 238-271).  `apiKey` is `os.getenv("GEMINI_API_KEY")`
with `""` for an unset variable (the source tests truthiness); `aux` is the
outcome of the `requests.post` to the interpreter model; `parse` stands for
`json.loads` followed by the typed field reads, returning `none` when
`json.loads` raises.  Every failure branch — absent credential, transport
error or timeout, non-ok HTTP status, undecodable response body, failing
text extraction, unparsable JSON — yields the fallback `{"limit": 20}`; the
function is total, so no exception escapes the interpretation step. -/
def interpretParams (apiKey : String) (aux : HttpOutcome AuxData)
    (parse : String → Option QueryParams) : QueryParams :=
  if apiKey = "" then defaultParams
  else
    match aux with
    | .transportFailure _ => defaultParams
    | .response status _ data? =>
      if isHttpError status then defaultParams
      else
        match data? with
        | none => defaultParams
        | some d =>
          match d.aiText? with
          | none => defaultParams
          | some t =>
            match parse (stripFences t) with
            | none => defaultParams
            | some query_params => query_params

/-! Context builder (`backend/server.py` lines 274-337): the SQL query built
from `query_params` and the synthetic system message. -/

/-- SQL `field ILIKE '%pat%'` as generated by `Product.<col>.ilike(f"%{kw}%")`:
case-insensitive substring match. -/
def ilike (field pat : String) : Bool :=
  charsContains (pyLowerStr field).data (pyLowerStr pat).data

/-- Category filter group (lines 279-285): OR over all keywords, each matched
against category and name.  An absent group (`[]`) contributes no conjunct,
i.e. `true`. -/
def matchesCategory (qp : QueryParams) (p : Product) : Bool :=
  qp.category_keywords.isEmpty ||
    qp.category_keywords.any (fun kw => ilike p.category kw || ilike p.name kw)

/-- Search-terms filter group (lines 288-294): OR over all terms, each matched
against name and description. -/
def matchesSearch (qp : QueryParams) (p : Product) : Bool :=
  qp.search_terms.isEmpty ||
    qp.search_terms.any (fun t => ilike p.name t || ilike p.description t)

/-- Lower price bound (lines 297-300): `Product.price >= min_price` when present. -/
def matchesMinPrice (qp : QueryParams) (p : Product) : Bool :=
  match qp.min_price with
  | none => true
  | some m => decide (m ≤ p.price)

/-- Upper price bound (lines 301-302): `Product.price <= max_price` when present. -/
def matchesMaxPrice (qp : QueryParams) (p : Product) : Bool :=
  match qp.max_price with
  | none => true
  | some m => decide (p.price ≤ m)

/-- The conjunction `and_(*filters)` of lines 304-307.  When no group is
present every conjunct is `true`, which coincides with the source skipping
`query.filter` entirely. -/
def matchesFilters (qp : QueryParams) (p : Product) : Bool :=
  matchesCategory qp p && matchesSearch qp p && matchesMinPrice qp p && matchesMaxPrice qp p

/-- Comparison used by `ORDER BY price ASC`. -/
def priceLE (a b : Product) : Prop :=
  a.price ≤ b.price

instance : DecidableRel priceLE :=
  fun a b => inferInstanceAs (Decidable (a.price ≤ b.price))

instance : IsTotal Product priceLE :=
  ⟨fun a b => le_total a.price b.price⟩

instance : IsTrans Product priceLE :=
  ⟨fun _ _ _ h1 h2 => le_trans h1 h2⟩

/-- Execution of the catalog query (lines 304-316): filter, `ORDER BY price
ASC` exactly when a price bound is present (lines 310-313), then
`LIMIT query_params.limit`.  `table` is the catalog in the order the backend
returns rows when no ORDER BY is given. -/
def runQuery (table : List Product) (qp : QueryParams) : List Product :=
  let filtered := table.filter (matchesFilters qp)
  let ordered :=
    if qp.min_price.isSome || qp.max_price.isSome then
      filtered.insertionSort priceLE
    else filtered
  ordered.take qp.limit

/-- One result line of the synthetic context message (line 332). -/
def productLine (p : Product) : String :=
  "- " ++ p.name ++ " | Category: " ++ p.category ++ " | Price: $" ++ toString p.price ++
    " | Stock: " ++ toString p.stock ++ "\n"

/-- The synthetic context message body (lines 330-332). -/
def formatContext (results : List Product) (total : Nat) : String :=
  "DATABASE RESULTS: Found " ++ toString results.length ++
    " products (total in database: " ++ toString total ++ ")\n\n" ++
    String.join (results.map productLine)

/-- The last user utterance, lowercased (lines 199-200): contents of the
messages whose role is "user", last one (or "" when there is none). -/
def lastUserQuery (messages : List Message) : String :=
  let user_texts := (messages.filter (fun m => m.role == "user")).map (fun m => m.content)
  pyLowerStr (user_texts.getLastD "")

/-- The whole of `_build_db_context_messages` (lines 194-343).  `db` is the
outcome of executing the catalog query: `.error e` models the SQLAlchemy call
raising with message `e`, and that error propagates out of this function
(the source has no `except` around the query; only `finally: db.close()`).
An empty last user query short-circuits to no context messages before any
network or database access. -/
def buildDbContextMessages (messages : List Message) (apiKey : String)
    (aux : HttpOutcome AuxData) (parse : String → Option QueryParams)
    (db : Except String (List Product)) : Except String (List Message) :=
  if lastUserQuery messages = "" then .ok []
  else
    let query_params := interpretParams apiKey aux parse
    match db with
    | .error e => .error e
    | .ok table =>
      let results := runQuery table query_params
      if results.isEmpty then
        .ok [{ role := "system", content := "DATABASE: No products found matching those criteria." }]
      else
        .ok [{ role := "system", content := formatContext results table.length }]

/-! Provider adapters (`backend/server.py` lines 64-143) and the chat
endpoint (lines 41-61). -/

/-- Normalized response shape returned by both adapters. -/
structure ChatResult where
  message : Message
  done : Bool
  total_duration : Option Int := none
  model : String
  provider : String
deriving Repr, DecidableEq

/-- An exception escaping the chat endpoint. -/
inductive ChatError where
  /-- `fastapi.HTTPException(status_code, detail)` raised by the gemini adapter. -/
  | httpException (status : Nat) (detail : String)
  /-- `requests.HTTPError` raised by `response.raise_for_status()` in the
  ollama adapter; it carries the response, hence upstream status and body. -/
  | httpError (status : Nat) (body : String)
  /-- a `requests` transport exception propagating uncaught. -/
  | requestException (msg : String)
  /-- `response.json()` decode failure propagating uncaught. -/
  | jsonError (body : String)
deriving Repr, DecidableEq

/-- JSON payload of a successful ollama `/api/chat` response; the field
defaults mirror the `data.get(key, default)` reads of lines 73-77
(`model? = none` stands for a payload without a "model" key, defaulted to
the requested model). -/
structure OllamaData where
  message : Message := { role := "", content := "" }
  done : Bool := true
  total_duration : Option Int := none
  model? : Option String := none
deriving Repr, DecidableEq

/-- The request body POSTed to the local backend (lines 65-69): the messages
are forwarded exactly as given, with no filtering. -/
structure OllamaRequest where
  model : String
  messages : List Message
  stream : Bool
deriving Repr, DecidableEq

/-- Construction of the ollama payload `{"model": ..., "messages": ..., "stream": False}`. -/
def ollamaRequest (model : String) (messages : List Message) : OllamaRequest :=
  { model := model, messages := messages, stream := false }

/-- The local backend adapter `_chat_with_ollama` (lines 64-79).  `responses`
is the sequence of outcomes the local backend would give to successive POSTs;
the adapter performs exactly one POST and consumes only the head, so its
result is independent of the tail (no retry).  An empty list means no
response at all and is modelled as a transport failure. -/
def chatWithOllama (model : String) (messages : List Message)
    (responses : List (HttpOutcome OllamaData)) : Except ChatError ChatResult :=
  match responses with
  | [] => .error (.requestException "connection failed")
  | .transportFailure msg :: _ => .error (.requestException msg)
  | .response status body data? :: _ =>
    if isHttpError status then .error (.httpError status body)
    else
      match data? with
      | none => .error (.jsonError body)
      | some d =>
        .ok { message := d.message, done := d.done, total_duration := d.total_duration,
              model := d.model?.getD model, provider := "ollama" }

/-- One `{"text": ...}` part of a gemini response candidate; `text = none`
models a part dict without a "text" key (line 132 tests `"text" in parts[0]`). -/
structure GeminiPart where
  text : Option String
deriving Repr, DecidableEq

/-- One gemini response candidate, collapsed to
`candidate.get("content", {}).get("parts", [])` (line 131). -/
structure GeminiCandidate where
  parts : List GeminiPart := []
deriving Repr, DecidableEq

/-- JSON payload of a gemini `generateContent` response. -/
structure GeminiData where
  candidates : List GeminiCandidate := []
deriving Repr, DecidableEq

/-- Extraction of the first candidate's first text part (lines 128-133);
every missing piece defaults to the empty string, never an error. -/
def geminiContentText (data : GeminiData) : String :=
  match data.candidates with
  | [] => ""
  | c :: _ =>
    match c.parts with
    | [] => ""
    | p :: _ =>
      match p.text with
      | none => ""
      | some t => t

/-- One `{"role": ..., "parts": [{"text": ...}]}` entry of the gemini request. -/
structure GeminiWirePart where
  text : String
deriving Repr, DecidableEq

/-- One content entry of the gemini request wire format. -/
structure GeminiWireContent where
  role : String
  parts : List GeminiWirePart
deriving Repr, DecidableEq

/-- Conversion of the conversation to gemini `contents` (lines 88-99):
messages with empty content are skipped (`if not text: continue`); role
"assistant" maps to "model" and every other role maps to "user". -/
def geminiContents (messages : List Message) : List GeminiWireContent :=
  messages.filterMap fun m =>
    if m.content = "" then none
    else
      some { role := if m.role = "assistant" then "model" else "user",
             parts := [{ text := m.content }] }

/-- Model-name normalization of the gemini adapter (lines 101-106): default
to "gemini-2.5-flash" when the model is unset or does not start with
"gemini" (case-sensitively), then remove every occurrence of "models/"
(`model.replace("models/", "")`). -/
def geminiModelName (model : String) : String :=
  let m := if model = "" || !pyStartsWith model "gemini" then "gemini-2.5-flash" else model
  pyRemoveAll m "models/"

/-- The request URL of line 109, built from the normalized model name. -/
def geminiRequestUrl (model apiKey : String) : String :=
  "https://generativelanguage.googleapis.com/v1/models/" ++ geminiModelName model ++
    ":generateContent?key=" ++ apiKey

/-- The cloud backend adapter `_chat_with_gemini` (lines 82-143).  `apiKey`
is `os.getenv("GEMINI_API_KEY")` with `""` for unset; `outcome` is the
outcome of the `requests.post` to `geminiRequestUrl model apiKey` carrying
`geminiContents messages`.  A transport failure or an undecodable body is
caught by the `except requests.exceptions.RequestException` clause and
re-raised as a 500 `HTTPException`; a non-ok status is re-raised as an
`HTTPException` with the upstream status and body. -/
def chatWithGemini (model : String) (messages : List Message) (apiKey : String)
    (outcome : HttpOutcome GeminiData) : Except ChatError ChatResult :=
  if apiKey = "" then .error (.httpException 500 "GEMINI_API_KEY is not set")
  else
    match outcome with
    | .transportFailure msg => .error (.httpException 500 ("Request failed: " ++ msg))
    | .response status body data? =>
      if isHttpError status then .error (.httpException status ("Gemini API error: " ++ body))
      else
        match data? with
        | none => .error (.httpException 500 ("Request failed: " ++ body))
        | some data =>
          .ok { message := { role := "assistant", content := geminiContentText data },
                done := true, total_duration := none,
                model := geminiModelName model, provider := "gemini" }

/-! Chat endpoint (`backend/server.py` lines 41-61). -/

/-- A JSON value, as decoded from the request body. -/
inductive JsonValue where
  | null
  | bool (b : Bool)
  | num (q : Rat)
  | str (s : String)
  | arr (xs : List JsonValue)
  | obj (fields : List (String × JsonValue))
deriving Repr

/-- CPython truthiness (`bool(...)`) of a JSON-decoded value: `None`, `False`,
zero, and empty strings/lists/dicts are falsy, everything else truthy. -/
def truthy : JsonValue → Bool
  | .null => false
  | .bool b => b
  | .num q => decide (q ≠ 0)
  | .str s => decide (s ≠ "")
  | .arr xs => !xs.isEmpty
  | .obj fields => !fields.isEmpty

/-- Line 46, `bool(payload.get("use_database", True))`: an absent field
defaults to `True`, a present one goes through Python truthiness. -/
def useDatabaseFlag : Option JsonValue → Bool
  | none => true
  | some j => truthy j

/-- The chat request body `{model?, messages, provider?, use_database?}`.
`model = none` / `provider = none` model absent keys (lines 43-45). -/
structure ChatPayload where
  model : Option String := none
  messages : List Message := []
  provider : Option String := none
  use_database : Option JsonValue := none

/-- The external world a chat request interacts with: the shared
`GEMINI_API_KEY`, the interpreter call outcome, the JSON decoding of the
interpreter answer, the catalog query outcome, and the provider backends'
responses. -/
structure Env where
  geminiApiKey : String
  aux : HttpOutcome AuxData
  parse : String → Option QueryParams
  db : Except String (List Product)
  ollama : List (HttpOutcome OllamaData)
  gemini : HttpOutcome GeminiData

/-- The augmentation step of the chat endpoint (lines 48-55): when enabled,
prepend the context messages; a raising `_build_db_context_messages` is
caught by `except Exception` and replaced by one synthetic system note. -/
def augmentMessages (useDb : Bool) (messages : List Message) (apiKey : String)
    (aux : HttpOutcome AuxData) (parse : String → Option QueryParams)
    (db : Except String (List Product)) : List Message :=
  if useDb then
    match buildDbContextMessages messages apiKey aux parse db with
    | .ok context_messages =>
      if context_messages.isEmpty then messages else context_messages ++ messages
    | .error e =>
      { role := "system", content := "Note: database retrieval failed: " ++ e } :: messages
  else messages

/-- Provider routing (lines 57-61): explicit `provider == "gemini"` or a
case-insensitive "gemini" model prefix selects the cloud adapter, anything
else the local one. -/
def dispatchChat (provider : Option String) (model : String) (messages : List Message)
    (env : Env) : Except ChatError ChatResult :=
  if provider == some "gemini" || pyStartsWith (pyLowerStr model) "gemini" then
    chatWithGemini model messages env.geminiApiKey env.gemini
  else
    chatWithOllama model messages env.ollama

/-- The `POST /chat` handler (lines 41-61). -/
def chat (payload : ChatPayload) (env : Env) : Except ChatError ChatResult :=
  let model := payload.model.getD "llama3.2"
  let use_database := useDatabaseFlag payload.use_database
  let messages := augmentMessages use_database payload.messages env.geminiApiKey
    env.aux env.parse env.db
  dispatchChat payload.provider model messages env

/-! Product update endpoint (`backend/routes/db.py` lines 66-89). -/

/-- The whitelisted fields of the update body; `some v` models the key being
present with value `v` (line 75, `if field in body`). -/
structure UpdateBody where
  name : Option String := none
  category : Option String := none
  price : Option Rat := none
  description : Option String := none
  stock : Option Int := none
deriving Repr, DecidableEq

/-- The `setattr` loop of lines 74-76 applied to one row; the primary key is
not whitelisted and is never touched. -/
def applyUpdate (body : UpdateBody) (p : Product) : Product :=
  { p with
    name := body.name.getD p.name,
    category := body.category.getD p.category,
    price := body.price.getD p.price,
    description := body.description.getD p.description,
    stock := body.stock.getD p.stock }

/-- The `POST /db/products/{product_id}` handler (lines 66-89).  The catalog
is the list of rows; `db.query(Product).get(product_id)` is lookup by primary
key, modelled by `find?` on the id.  The result is the HTTP outcome (updated
item, or 404 `HTTPException`) together with the catalog after the request;
on 404 nothing was written, so the catalog is returned unchanged. -/
def update_product (catalog : List Product) (product_id : Int) (body : UpdateBody) :
    Except Nat Product × List Product :=
  match catalog.find? (fun p => p.id == product_id) with
  | none => (.error 404, catalog)
  | some p =>
    (.ok (applyUpdate body p),
     catalog.map (fun q => if q.id == product_id then applyUpdate body q else q))

/-! Helper lemmas. -/

/-- Every message kept by the gemini wire conversion has non-empty text. -/
theorem geminiContents_text_ne_empty {messages : List Message} {c : GeminiWireContent}
    (hc : c ∈ geminiContents messages) : ∀ part ∈ c.parts, part.text ≠ "" := by
  intro part hp
  rcases List.mem_filterMap.1 hc with ⟨m, _, hf⟩
  by_cases h : m.content = ""
  · simp [h] at hf
  · simp only [h, if_neg, ite_false] at hf
    cases hf
    rcases List.mem_singleton.1 hp with rfl
    exact h

/-- The `setattr` loop never touches the primary key. -/
theorem applyUpdate_id (body : UpdateBody) (p : Product) : (applyUpdate body p).id = p.id := rfl

/-- Evaluation of `find?` on a matching head. -/
theorem find?_cons_true {α : Type} (p : α → Bool) (a : α) (l : List α) (h : p a = true) :
    List.find? p (a :: l) = some a := by
  rw [List.find?_cons, h]

/-- Evaluation of `find?` on a non-matching head. -/
theorem find?_cons_false {α : Type} (p : α → Bool) (a : α) (l : List α) (h : p a = false) :
    List.find? p (a :: l) = List.find? p l := by
  rw [List.find?_cons, h]

/-- Rewriting the rows with a matching id commutes with primary-key lookup. -/
theorem find?_map_update (body : UpdateBody) (product_id : Int) :
    ∀ (l : List Product) (p : Product),
      l.find? (fun q => q.id == product_id) = some p →
      (l.map (fun q => if q.id == product_id then applyUpdate body q else q)).find?
          (fun q => q.id == product_id) = some (applyUpdate body p) := by
  intro l
  induction l with
  | nil => intro p hp; simp at hp
  | cons a l ih =>
    intro p hp
    cases ha : (a.id == product_id) with
    | true =>
      rw [find?_cons_true (fun q : Product => q.id == product_id) a l ha] at hp
      have hp' : a = p := Option.some.inj hp
      subst hp'
      rw [List.map_cons, if_pos ha]
      exact find?_cons_true (fun q : Product => q.id == product_id) _ _
        (by show ((applyUpdate body a).id == product_id) = true
            rw [applyUpdate_id]; exact ha)
    | false =>
      rw [find?_cons_false (fun q : Product => q.id == product_id) a l ha] at hp
      rw [List.map_cons, if_neg (by simp [ha]),
        find?_cons_false (fun q : Product => q.id == product_id) a _ ha]
      exact ih p hp

/-- After normalization the model name never starts with "models/": a
defaulted name is the concrete fallback, and a kept name starts with
"gemini", whose leading 'g' survives `replace("models/", "")`. -/
theorem models_slash_not_pre_g (ds : List Char) :
    List.isPrefixOf "models/".data ('g' :: ds) = false := by
  have h : List.isPrefixOf "models/".data ('g' :: ds) =
      (('m' == 'g') && List.isPrefixOf ['o', 'd', 'e', 'l', 's', '/'] ds) := rfl
  rw [h, show (('m' : Char) == 'g') = false from by decide, Bool.false_and]

theorem geminiModelName_not_pathlike (model : String) :
    pyStartsWith (geminiModelName model) "models/" = false := by
  by_cases hc : (decide (model = "") || !pyStartsWith model "gemini") = true
  · have h1 : geminiModelName model = pyRemoveAll "gemini-2.5-flash" "models/" := by
      unfold geminiModelName
      rw [if_pos hc]
    rw [h1]; decide
  · have hcond : (decide (model = "") || !pyStartsWith model "gemini") = false :=
      Bool.eq_false_iff.2 hc
    have hg : pyStartsWith model "gemini" = true := by
      rcases Bool.or_eq_false_iff.1 hcond with ⟨-, h2⟩
      cases hpw : pyStartsWith model "gemini"
      · rw [hpw] at h2; simp at h2
      · rfl
    have h1 : geminiModelName model = pyRemoveAll model "models/" := by
      unfold geminiModelName
      rw [if_neg hc]
    rw [h1]
    show List.isPrefixOf "models/".data
      (removeAllAux "models/".data model.data.length model.data) = false
    have hg' : List.isPrefixOf "gemini".data model.data = true := hg
    rcases hdm : model.data with _ | ⟨c, cs⟩
    · rw [hdm] at hg'; exact absurd hg' (by decide)
    · rw [hdm] at hg'
      have hcg : c = 'g' := by
        have h3 : (('g' == c) && List.isPrefixOf ['e', 'm', 'i', 'n', 'i'] cs) = true := hg'
        have h4 : ('g' == c) = true := by
          cases hgc : (('g' : Char) == c)
          · rw [hgc, Bool.false_and] at h3
            exact absurd h3 Bool.false_ne_true
          · rfl
        exact (eq_of_beq h4).symm
      subst hcg
      have hstep : removeAllAux "models/".data ('g' :: cs).length ('g' :: cs) =
          'g' :: removeAllAux "models/".data cs.length cs := by
        have hun : removeAllAux "models/".data (cs.length + 1) ('g' :: cs) =
            if (List.isPrefixOf "models/".data ('g' :: cs) && !List.isEmpty "models/".data) = true
            then removeAllAux "models/".data cs.length
              (List.drop "models/".data.length ('g' :: cs))
            else 'g' :: removeAllAux "models/".data cs.length cs := rfl
        rw [show ('g' :: cs).length = cs.length + 1 from rfl, hun,
          models_slash_not_pre_g, Bool.false_and]
        simp
      rw [hstep]
      exact models_slash_not_pre_g _

/-- Conditions under which the last user query is empty. -/
theorem lastUserQuery_eq_empty {messages : List Message}
    (h : messages.filter (fun m => m.role == "user") = [] ∨
      (messages.filter (fun m => m.role == "user")).getLast?.map
        (fun m => m.content) = some "") :
    lastUserQuery messages = "" := by
  show pyLowerStr (((messages.filter (fun m => m.role == "user")).map
    (fun m => m.content)).getLastD "") = ""
  rcases h with h | h
  · rw [h]; rfl
  · rw [List.getLastD_eq_getLast?, List.getLast?_map, h]
    rfl

/-! Claim theorems. -/

/-- Claim C1: for a chat request whose latest user message is non-empty the
interpretation step runs, and whenever the cloud credential is absent, the
auxiliary LLM call raises or times out, or the (fence-stripped) response text
is not valid JSON, it falls back to the default FilterSpec — the fallback
dict `{"limit": 20}`, i.e. `defaultParams` with limit 20.  `interpretParams`
is a total function, so no exception propagates out of the interpretation
step: every failure is a silent degrade. -/
theorem c1_interpreter_silent_fallback (apiKey : String) (aux : HttpOutcome AuxData)
    (parse : String → Option QueryParams)
    (h : apiKey = "" ∨ (∃ msg, aux = .transportFailure msg) ∨
      (∃ status body d t, aux = .response status body (some d) ∧ d.aiText? = some t ∧
        parse (stripFences t) = none)) :
    interpretParams apiKey aux parse = defaultParams ∧ defaultParams.limit = 20 := by
  refine ⟨?_, rfl⟩
  rcases h with h | ⟨msg, rfl⟩ | ⟨status, body, d, t, rfl, hd, hp⟩
  · simp [interpretParams, h]
  · by_cases hk : apiKey = "" <;> simp [interpretParams, hk]
  · by_cases hk : apiKey = ""
    · simp [interpretParams, hk]
    · by_cases he : isHttpError status = true <;>
        simp [interpretParams, hk, he, hd, hp]

/-- Witness for C1: the fallback fires on a concrete timed-out call with the
credential absent, and on a concrete non-JSON answer text with the credential
present. -/
theorem c1_interpreter_silent_fallback_witness :
    interpretParams "" (.transportFailure "timed out") (fun _ => none) = defaultParams ∧
    interpretParams "key" (.response 200 "ok" (some ⟨some "not json"⟩)) (fun _ => none) =
      defaultParams :=
  ⟨(c1_interpreter_silent_fallback "" (.transportFailure "timed out") (fun _ => none)
      (Or.inl rfl)).1,
   (c1_interpreter_silent_fallback "key" (.response 200 "ok" (some ⟨some "not json"⟩))
      (fun _ => none)
      (Or.inr (Or.inr ⟨200, "ok", ⟨some "not json"⟩, "not json", rfl, rfl, rfl⟩))).1⟩

/-- Claim C2 is false as stated: the Context Builder itself
(`_build_db_context_messages`) does raise.  On a conversation with a
non-empty user query, a catalog query execution failure propagates out of
the builder (the function has no `except` clause around the query, only
`finally: db.close()`); here it returns `.error`, the model of an escaping
exception, at a concrete input. -/
theorem c2_builder_propagates_catalog_failure :
    buildDbContextMessages [{ role := "user", content := "show me laptops" }] ""
        (.transportFailure "down") (fun _ => none) (.error "connection refused") =
      .error "connection refused" := by
  rfl

/-- Claim C2, amended: the catalog failure is caught one level up, in the
chat endpoint (`except Exception` at lines 54-55), which converts it into the
synthetic system message "Note: database retrieval failed: ..." prepended to
the conversation, and the request still proceeds to the provider router with
those messages. -/
theorem c2_chat_recovers_catalog_failure (p : ChatPayload) (env : Env) (e : String)
    (hdb : env.db = .error e)
    (huse : useDatabaseFlag p.use_database = true)
    (hq : lastUserQuery p.messages ≠ "") :
    augmentMessages true p.messages env.geminiApiKey env.aux env.parse env.db =
      { role := "system", content := "Note: database retrieval failed: " ++ e } :: p.messages ∧
    chat p env = dispatchChat p.provider (p.model.getD "llama3.2")
      ({ role := "system", content := "Note: database retrieval failed: " ++ e } ::
        p.messages) env := by
  have haug : augmentMessages true p.messages env.geminiApiKey env.aux env.parse env.db =
      { role := "system", content := "Note: database retrieval failed: " ++ e } ::
        p.messages := by
    unfold augmentMessages buildDbContextMessages
    rw [if_neg hq, hdb]
    rfl
  refine ⟨haug, ?_⟩
  have hchat : chat p env = dispatchChat p.provider (p.model.getD "llama3.2")
      (augmentMessages (useDatabaseFlag p.use_database) p.messages env.geminiApiKey
        env.aux env.parse env.db) env := rfl
  rw [hchat, huse, haug]

/-- Witness for C2 (amended): a concrete request over a failing catalog still
reaches the local provider dispatch, carrying the synthetic note. -/
theorem c2_chat_recovers_catalog_failure_witness :
    chat { messages := [{ role := "user", content := "hello" }] }
        { geminiApiKey := "", aux := .transportFailure "x", parse := fun _ => none,
          db := .error "db down", ollama := [], gemini := .transportFailure "y" } =
      dispatchChat none "llama3.2"
        ({ role := "system", content := "Note: database retrieval failed: db down" } ::
          [{ role := "user", content := "hello" }])
        { geminiApiKey := "", aux := .transportFailure "x", parse := fun _ => none,
          db := .error "db down", ollama := [], gemini := .transportFailure "y" } :=
  (c2_chat_recovers_catalog_failure
    { messages := [{ role := "user", content := "hello" }] }
    { geminiApiKey := "", aux := .transportFailure "x", parse := fun _ => none,
      db := .error "db down", ollama := [], gemini := .transportFailure "y" }
    "db down" rfl rfl (by decide)).2

/-- Claim C3: a conversation with no user message, or whose last user message
content is empty, produces no context messages; the result is `.ok []` for
every interpreter-call outcome, JSON parser and catalog state, so no network
or catalog access can influence it (the source short-circuits at lines
203-205 before the interpreter call and the query), and the augmentation
step leaves the conversation unchanged. -/
theorem c3_empty_query_no_augmentation (messages : List Message) (apiKey : String)
    (aux : HttpOutcome AuxData) (parse : String → Option QueryParams)
    (db : Except String (List Product))
    (h : messages.filter (fun m => m.role == "user") = [] ∨
      (messages.filter (fun m => m.role == "user")).getLast?.map
        (fun m => m.content) = some "") :
    buildDbContextMessages messages apiKey aux parse db = .ok [] ∧
    augmentMessages true messages apiKey aux parse db = messages := by
  have hq := lastUserQuery_eq_empty h
  have hb : buildDbContextMessages messages apiKey aux parse db = .ok [] := by
    unfold buildDbContextMessages
    rw [if_pos hq]
  exact ⟨hb, by unfold augmentMessages; rw [hb]; rfl⟩

/-- Witness for C3: concrete instances — an empty conversation, and a
conversation whose last user message is empty. -/
theorem c3_empty_query_no_augmentation_witness :
    augmentMessages true [] "" (.transportFailure "t") (fun _ => none) (.ok []) = [] ∧
    buildDbContextMessages [{ role := "user", content := "" }] ""
      (.transportFailure "t") (fun _ => none) (.ok []) = .ok [] :=
  ⟨(c3_empty_query_no_augmentation [] "" (.transportFailure "t") (fun _ => none)
      (.ok []) (Or.inl rfl)).2,
   (c3_empty_query_no_augmentation [{ role := "user", content := "" }] ""
      (.transportFailure "t") (fun _ => none) (.ok []) (Or.inr (by decide))).1⟩

/-- Claim C4 is false as stated: the local (ollama) adapter forwards the
message list into its request body unchanged (lines 65-69 have no filtering),
so a message with empty content is still transmitted — here at a concrete
one-message conversation. -/
theorem c4_ollama_keeps_empty_messages :
    (ollamaRequest "llama3.2" [{ role := "user", content := "" }]).messages =
      [{ role := "user", content := "" }] := by
  rfl

/-- Claim C4, amended: messages with empty content are dropped before
transmission only in the cloud (gemini) adapter, whose wire conversion skips
them; the local (ollama) adapter forwards the message list unchanged,
including empty-content messages. -/
theorem c4_empty_content_dropped_only_for_gemini (model : String) (messages : List Message) :
    (∀ c ∈ geminiContents messages, ∀ part ∈ c.parts, part.text ≠ "") ∧
    (ollamaRequest model messages).messages = messages :=
  ⟨fun _ hc => geminiContents_text_ne_empty hc, rfl⟩

/-- Witness for C4 (amended): on a concrete conversation the gemini wire
content keeps only the non-empty message, whose text is non-empty, while the
ollama request body keeps the empty message. -/
theorem c4_empty_content_dropped_only_for_gemini_witness :
    ({ text := "hi" } : GeminiWirePart).text ≠ "" ∧
    (ollamaRequest "llama3.2" [{ role := "user", content := "" }]).messages =
      [{ role := "user", content := "" }] :=
  ⟨(c4_empty_content_dropped_only_for_gemini "llama3.2"
      [{ role := "user", content := "" }, { role := "assistant", content := "hi" }]).1
      { role := "model", parts := [{ text := "hi" }] } (by decide)
      { text := "hi" } (by decide),
   (c4_empty_content_dropped_only_for_gemini "llama3.2"
      [{ role := "user", content := "" }]).2⟩

/-- Claim C5: in the cloud adapter the model name is defaulted to
"gemini-2.5-flash" when unset or not "gemini"-prefixed; the normalized name
never carries a leading "models/" path component; and it is exactly the name
interpolated into the request URL and returned in the response's model
field. -/
theorem c5_gemini_model_normalization (model apiKey body : String)
    (messages : List Message) (data : GeminiData) :
    ((model = "" ∨ pyStartsWith model "gemini" = false) →
      geminiModelName model = "gemini-2.5-flash") ∧
    geminiRequestUrl model apiKey =
      "https://generativelanguage.googleapis.com/v1/models/" ++ geminiModelName model ++
        ":generateContent?key=" ++ apiKey ∧
    pyStartsWith (geminiModelName model) "models/" = false ∧
    (apiKey ≠ "" →
      chatWithGemini model messages apiKey (.response 200 body (some data)) =
        .ok { message := { role := "assistant", content := geminiContentText data },
              done := true, total_duration := none,
              model := geminiModelName model, provider := "gemini" }) := by
  refine ⟨?_, rfl, geminiModelName_not_pathlike model, ?_⟩
  · intro h
    rcases h with h | h
    · subst h; decide
    · have hcond : (decide (model = "") || !pyStartsWith model "gemini") = true := by
        rw [h]; simp
      have h1 : geminiModelName model = pyRemoveAll "gemini-2.5-flash" "models/" := by
        unfold geminiModelName
        rw [if_pos hcond]
      rw [h1]; decide
  · intro hk
    unfold chatWithGemini
    rw [if_neg hk]
    rfl

/-- Witness for C5: a path-prefixed name is not "gemini"-prefixed, so it is
defaulted (not merely stripped), and a successful call reports the
normalized name. -/
theorem c5_gemini_model_normalization_witness :
    geminiModelName "models/gemini-2.5-pro" = "gemini-2.5-flash" ∧
    chatWithGemini "models/gemini-2.5-pro" [] "k" (.response 200 "" (some { candidates := [] })) =
      .ok { message := { role := "assistant", content := "" }, done := true,
            total_duration := none, model := "gemini-2.5-flash", provider := "gemini" } :=
  ⟨(c5_gemini_model_normalization "models/gemini-2.5-pro" "k" "" [] { candidates := [] }).1
      (Or.inr (by decide)),
   (c5_gemini_model_normalization "models/gemini-2.5-pro" "k" "" [] { candidates := [] }).2.2.2
      (by decide)⟩

/-- Claim C6 is false as stated: a non-2xx status outside `[400, 600)` does
not surface an error.  `raise_for_status()` only raises for 4xx/5xx, so a
304 response whose body decodes as JSON is treated as success by the local
adapter at this concrete input. -/
theorem c6_non2xx_not_always_error :
    chatWithOllama "llama3.2" [] [.response 304 "null" (some {})] =
      .ok { message := { role := "", content := "" }, done := true, total_duration := none,
            model := "llama3.2", provider := "ollama" } := by
  rfl

/-- Claim C6, amended: when the local backend answers a chat request with a
4xx or 5xx response, the chat endpoint surfaces the `requests.HTTPError`
carrying the upstream status and response body; the result is independent of
any further prepared backend responses (`rest`), i.e. exactly one POST is
made and the request is not retried. -/
theorem c6_local_error_propagated (model : String) (messages : List Message)
    (status : Nat) (body : String) (data? : Option OllamaData)
    (rest : List (HttpOutcome OllamaData)) (p : ChatPayload) (env : Env)
    (h4 : 400 ≤ status) (h6 : status < 600)
    (hresp : env.ollama = .response status body data? :: rest)
    (hprov : p.provider ≠ some "gemini")
    (hmodel : pyStartsWith (pyLowerStr (p.model.getD "llama3.2")) "gemini" = false) :
    chatWithOllama model messages (.response status body data? :: rest) =
      .error (.httpError status body) ∧
    chat p env = .error (.httpError status body) := by
  have herr : isHttpError status = true := by
    unfold isHttpError
    rw [decide_eq_true h4, decide_eq_true h6]
    rfl
  have hada : ∀ (mo : String) (ms : List Message),
      chatWithOllama mo ms (.response status body data? :: rest) =
        .error (.httpError status body) := by
    intro mo ms
    simp only [chatWithOllama]
    rw [if_pos herr]
  refine ⟨hada model messages, ?_⟩
  have hchat : chat p env = dispatchChat p.provider (p.model.getD "llama3.2")
      (augmentMessages (useDatabaseFlag p.use_database) p.messages env.geminiApiKey
        env.aux env.parse env.db) env := rfl
  rw [hchat]
  unfold dispatchChat
  have hcond : (p.provider == some "gemini" ||
      pyStartsWith (pyLowerStr (p.model.getD "llama3.2")) "gemini") = false := by
    rw [hmodel, Bool.or_false]
    exact beq_eq_false_iff_ne.mpr hprov
  rw [if_neg (show ¬((p.provider == some "gemini" ||
      pyStartsWith (pyLowerStr (p.model.getD "llama3.2")) "gemini") = true) from by
    rw [hcond]; exact Bool.false_ne_true)]
  rw [hresp]
  exact hada _ _

/-- Witness for C6 (amended): a concrete 500 with body "boom" surfaces as the
corresponding `HTTPError` out of the chat endpoint. -/
theorem c6_local_error_propagated_witness :
    chat { messages := [], use_database := some (.bool false) }
        { geminiApiKey := "", aux := .transportFailure "x", parse := fun _ => none,
          db := .ok [], ollama := [.response 500 "boom" none],
          gemini := .transportFailure "y" } =
      .error (.httpError 500 "boom") :=
  (c6_local_error_propagated "llama3.2" [] 500 "boom" none []
    { messages := [], use_database := some (.bool false) }
    { geminiApiKey := "", aux := .transportFailure "x", parse := fun _ => none,
      db := .ok [], ollama := [.response 500 "boom" none],
      gemini := .transportFailure "y" }
    (by decide) (by decide) rfl (by decide) (by decide)).2

/-- Claim C7: minPrice/maxPrice are inclusive bounds ANDed with the other
filters, so with `min_price = max_price = 100` every product in the context
builder's result set has price exactly 100. -/
theorem c7_price_bounds_inclusive (table : List Product) (qp : QueryParams)
    (hmin : qp.min_price = some 100) (hmax : qp.max_price = some 100) :
    ∀ p ∈ runQuery table qp, p.price = 100 := by
  intro p hp
  simp only [runQuery, hmin, hmax, Option.isSome_some, Bool.true_or, if_true] at hp
  have h1 := List.mem_of_mem_take hp
  have h2 := (List.mem_insertionSort priceLE).1 h1
  have h3 := List.mem_filter.1 h2
  have hpred := h3.2
  simp only [matchesFilters, Bool.and_eq_true] at hpred
  obtain ⟨⟨-, hmi⟩, hma⟩ := hpred
  have hge : (100 : ℚ) ≤ p.price := by
    unfold matchesMinPrice at hmi
    rw [hmin] at hmi
    exact of_decide_eq_true hmi
  have hle : p.price ≤ (100 : ℚ) := by
    unfold matchesMaxPrice at hma
    rw [hmax] at hma
    exact of_decide_eq_true hma
  exact le_antisymm hle hge

/-- Witness for C7: a concrete catalog with prices 99, 100, 150 — the result
set is exactly the price-100 row (bounds are inclusive, not exclusive). -/
theorem c7_price_bounds_inclusive_witness :
    (∀ p ∈ runQuery [⟨1, "a", "c", 99, "d", 1⟩, ⟨2, "b", "c", 100, "d", 1⟩,
        ⟨3, "e", "c", 150, "d", 1⟩] { min_price := some 100, max_price := some 100 },
      p.price = 100) ∧
    runQuery [⟨1, "a", "c", 99, "d", 1⟩, ⟨2, "b", "c", 100, "d", 1⟩,
        ⟨3, "e", "c", 150, "d", 1⟩] { min_price := some 100, max_price := some 100 } =
      [⟨2, "b", "c", 100, "d", 1⟩] :=
  ⟨c7_price_bounds_inclusive _ _ rfl rfl, by decide⟩

/-- Claim C8 is false as stated: with no filters, the source applies no
ORDER BY at all (lines 309-313 order only when a price bound is present), so
the rows come back in the backend's default order — here a concrete catalog
whose default order is not ascending by id. -/
theorem c8_no_id_ordering :
    ¬ List.Pairwise (fun a b : Product => a.id ≤ b.id)
      (runQuery [⟨2, "b", "c", 100, "d", 1⟩, ⟨1, "a", "c", 99, "d", 1⟩] { limit := 50 }) := by
  decide

/-- Claim C8, amended: when a price bound is present the results are ordered
ascending by price; with no filters at all the builder issues an unfiltered
query capped at the limit and with no ordering clause, returning the
backend's default row order (not necessarily ascending by id). -/
theorem c8_result_ordering (table : List Product) (qp : QueryParams) :
    ((qp.min_price.isSome ∨ qp.max_price.isSome) →
      List.Pairwise priceLE (runQuery table qp)) ∧
    (qp.category_keywords = [] → qp.search_terms = [] → qp.min_price = none →
      qp.max_price = none → runQuery table qp = table.take qp.limit) := by
  constructor
  · intro h
    have hcond : (qp.min_price.isSome || qp.max_price.isSome) = true := by
      rcases h with h | h <;> simp [h]
    show List.Pairwise priceLE (List.take qp.limit
      (if (qp.min_price.isSome || qp.max_price.isSome) = true then
        List.insertionSort priceLE (List.filter (matchesFilters qp) table)
      else List.filter (matchesFilters qp) table))
    rw [if_pos hcond]
    exact List.Pairwise.sublist (List.take_sublist _ _)
      (List.sorted_insertionSort priceLE _)
  · intro h1 h2 h3 h4
    have hfil : List.filter (matchesFilters qp) table = table := by
      apply List.filter_eq_self.2
      intro a _
      unfold matchesFilters matchesCategory matchesSearch matchesMinPrice matchesMaxPrice
      rw [h1, h2, h3, h4]
      rfl
    have hcond : (qp.min_price.isSome || qp.max_price.isSome) = false := by
      rw [h3, h4]; rfl
    show List.take qp.limit
      (if (qp.min_price.isSome || qp.max_price.isSome) = true then
        List.insertionSort priceLE (List.filter (matchesFilters qp) table)
      else List.filter (matchesFilters qp) table) = table.take qp.limit
    rw [hcond, if_neg Bool.false_ne_true, hfil]

/-- Witness for C8 (amended): with a price bound the concrete result is
sorted by price; without filters a two-row catalog is returned whole, in
table order. -/
theorem c8_result_ordering_witness :
    List.Pairwise priceLE (runQuery [⟨2, "b", "c", 100, "d", 1⟩, ⟨1, "a", "c", 99, "d", 1⟩]
      { min_price := some 0 }) ∧
    runQuery [⟨2, "b", "c", 100, "d", 1⟩, ⟨1, "a", "c", 99, "d", 1⟩] {} =
      [⟨2, "b", "c", 100, "d", 1⟩, ⟨1, "a", "c", 99, "d", 1⟩] :=
  ⟨(c8_result_ordering [⟨2, "b", "c", 100, "d", 1⟩, ⟨1, "a", "c", 99, "d", 1⟩]
      { min_price := some 0 }).1 (Or.inl rfl),
   (c8_result_ordering [⟨2, "b", "c", 100, "d", 1⟩, ⟨1, "a", "c", 99, "d", 1⟩] {}).2
      rfl rfl rfl rfl⟩

/-- Claim C9: updating the price of an existing product returns the item
with the new price and leaves name, category, description and stock (and the
id) unchanged, and re-reading that id in the resulting catalog returns the
updated row; updating an absent id yields a 404 and leaves the catalog
unchanged. -/
theorem c9_update_roundtrip (catalog : List Product) (product_id : Int) (r : Rat) :
    (∀ p, catalog.find? (fun q => q.id == product_id) = some p →
      (update_product catalog product_id { price := some r }).1 = .ok { p with price := r } ∧
      ((update_product catalog product_id { price := some r }).2.find?
        (fun q => q.id == product_id)) = some { p with price := r }) ∧
    (catalog.find? (fun q => q.id == product_id) = none →
      update_product catalog product_id { price := some r } = (.error 404, catalog)) := by
  constructor
  · intro p hp
    constructor
    · unfold update_product
      rw [hp]
      rfl
    · unfold update_product
      rw [hp]
      exact find?_map_update { price := some r } product_id catalog p hp
  · intro hnone
    unfold update_product
    rw [hnone]

/-- Witness for C9: a concrete one-item catalog — price update round-trips,
the other fields survive, and an absent id gives 404 with the catalog
untouched. -/
theorem c9_update_roundtrip_witness :
    (update_product [⟨1, "Laptop", "Electronics", 999, "laptop", 5⟩] 1 { price := some 100 }).1 =
      .ok ⟨1, "Laptop", "Electronics", 100, "laptop", 5⟩ ∧
    update_product [⟨1, "Laptop", "Electronics", 999, "laptop", 5⟩] 2 { price := some 100 } =
      (.error 404, [⟨1, "Laptop", "Electronics", 999, "laptop", 5⟩]) :=
  ⟨((c9_update_roundtrip [⟨1, "Laptop", "Electronics", 999, "laptop", 5⟩] 1 100).1
      ⟨1, "Laptop", "Electronics", 999, "laptop", 5⟩ rfl).1,
   (c9_update_roundtrip [⟨1, "Laptop", "Electronics", 999, "laptop", 5⟩] 2 100).2 rfl⟩

/-- Claim C10: the chat endpoint reads use_database with Python truthiness —
absent means enabled, the non-empty string "false" is truthy and enables
augmentation, and exactly JSON false, 0, null, "", [] and an empty object
disable it; when it is disabled the endpoint dispatches the original
messages with no augmentation. -/
theorem c10_use_database_truthiness :
    useDatabaseFlag none = true ∧
    useDatabaseFlag (some (.str "false")) = true ∧
    (∀ j : JsonValue, useDatabaseFlag (some j) = false ↔
      (j = .bool false ∨ j = .num 0 ∨ j = .null ∨ j = .str "" ∨ j = .arr [] ∨ j = .obj [])) ∧
    (∀ (p : ChatPayload) (env : Env), useDatabaseFlag p.use_database = false →
      chat p env = dispatchChat p.provider (p.model.getD "llama3.2") p.messages env) := by
  refine ⟨rfl, by decide, ?_, ?_⟩
  · intro j
    cases j with
    | null => simp [useDatabaseFlag, truthy]
    | bool b => cases b <;> simp [useDatabaseFlag, truthy]
    | num q => simp [useDatabaseFlag, truthy, decide_eq_false_iff_not]
    | str s => simp [useDatabaseFlag, truthy, decide_eq_false_iff_not]
    | arr xs => simp [useDatabaseFlag, truthy, List.isEmpty_iff]
    | obj fields => simp [useDatabaseFlag, truthy, List.isEmpty_iff]
  · intro p env h
    have hchat : chat p env = dispatchChat p.provider (p.model.getD "llama3.2")
        (augmentMessages (useDatabaseFlag p.use_database) p.messages env.geminiApiKey
          env.aux env.parse env.db) env := rfl
    rw [hchat, h]
    rfl

/-- Witness for C10: the string "false" enables augmentation while the
number 0 disables it. -/
theorem c10_use_database_truthiness_witness :
    useDatabaseFlag (some (.str "false")) = true ∧
    useDatabaseFlag (some (.num 0)) = false :=
  ⟨c10_use_database_truthiness.2.1,
   (c10_use_database_truthiness.2.2.1 (.num 0)).mpr (Or.inr (Or.inl rfl))⟩

end CSAgent
